import Mathlib

/-!
Verification development for the RAG_Document_Loader repository.

The file embeds, as executable Lean definitions, the parts of the source
relevant to the frozen claims:

  * `src/file_version_tracker.py` — the `FileVersionTracker` class
    (`get_last_version`, `set_last_version`, `is_new_version_available`),
    with the backing database table modelled as an association list of
    `(filename, tracker)` string pairs and connection availability as a
    boolean parameter;
  * `src/plugin_loader.py` — `PluginLoader._load_plugin` / `load_plugins`,
    with dynamic import/construction modelled as an environment function
    from a manifest entry to an instance or an error;
  * `src/main.py` — the orchestrator loop `main`, with plugin `run()`
    behaviour and the corpus `upload_file` collaborator modelled as
    explicit parameters, and the pass producing an observable trace
    (invocations, upload calls, version-marker set calls, surviving
    files, per-plugin outcomes).

Python `datetime` values are modelled by naive wall-clock microseconds
since the epoch together with an optional timezone offset, and
`datetime.fromisoformat` by an executable parser of its documented
ISO-8601 grammar (date `YYYY-MM-DD`, optional time `HH:MM[:SS[.fff/ffffff]]`,
optional offset `+HH:MM`/`-HH:MM`; pre-3.11 semantics, in which a literal
`Z` suffix is not accepted by the parser itself — the source code performs
`.replace("Z", "+00:00")` before every parse, which is embedded verbatim
as `pyReplaceZ`).
-/

/-- Numeric value of a decimal digit character. -/
def digitVal (c : Char) : Nat := c.toNat - 48

/-- Reads two decimal digit characters as a number, as Python does for the
`MM`, `DD`, `HH`, `MM`, `SS` fields of an ISO string. -/
def twoDigits (a b : Char) : Option Nat :=
  if a.isDigit && b.isDigit then some (10 * digitVal a + digitVal b) else none

/-- Reads four decimal digit characters as a number (the `YYYY` field). -/
def fourDigits (a b c d : Char) : Option Nat :=
  if a.isDigit && b.isDigit && c.isDigit && d.isDigit then
    some (1000 * digitVal a + 100 * digitVal b + 10 * digitVal c + digitVal d)
  else none

/-- Gregorian leap-year test, as used by Python `datetime` for day-of-month
validation. -/
def isLeapYear (y : Int) : Bool :=
  (y % 4 == 0 && y % 100 != 0) || y % 400 == 0

/-- Number of days in a month, for the day-of-month range check performed by
the `datetime` constructor. -/
def daysInMonth (y : Int) (m : Nat) : Nat :=
  if m = 2 then (if isLeapYear y then 29 else 28)
  else if m = 4 ∨ m = 6 ∨ m = 9 ∨ m = 11 then 30
  else 31

/-- Days since 1970-01-01 of a Gregorian civil date (the standard
`days_from_civil` computation; the year-shift makes truncating division
correct). -/
def daysFromCivil (y : Int) (m d : Nat) : Int :=
  let y2 : Int := if m ≤ 2 then y - 1 else y
  let era : Int := (if y2 ≥ 0 then y2 else y2 - 399) / 400
  let yoe : Int := y2 - era * 400
  let mp : Int := ((m : Int) + 9) % 12
  let doy : Int := (153 * mp + 2) / 5 + (d : Int) - 1
  let doe : Int := yoe * 365 + yoe / 4 - yoe / 100 + doy
  era * 146097 + doe - 719468

/-- Model of a Python `datetime.datetime`: naive wall-clock microseconds
since the epoch plus an optional timezone offset in minutes (`none` models
a naive datetime, `some o` an aware one). -/
structure PyDatetime where
  usec : Int
  offsetMin : Option Int
deriving Repr, DecidableEq

/-- Model of the Python exceptions the embedded code can raise. -/
inductive PyError where
  /-- `psycopg2.OperationalError`: the backing store cannot be reached. -/
  | operationalError
  /-- `ValueError`, e.g. from `datetime.fromisoformat` on a bad string. -/
  | valueError (msg : String)
  /-- `TypeError`, e.g. comparing naive and aware datetimes. -/
  | typeError (msg : String)
  /-- `RuntimeError`, raised explicitly by `is_new_version_available`. -/
  | runtimeError (msg : String)
deriving Repr, DecidableEq

/-- Message text of an exception, used when it is interpolated into the
`RuntimeError` raised by `is_new_version_available`. -/
def pyErrorMessage : PyError → String
  | PyError.operationalError => "connection to server failed"
  | PyError.valueError m => m
  | PyError.typeError m => m
  | PyError.runtimeError m => m

/-- Character-level embedding of Python `s.replace("Z", "+00:00")`: every
occurrence of the character `Z` is replaced by the six characters
`+00:00`. -/
def replaceZChars : List Char → List Char
  | [] => []
  | c :: rest =>
    if c = 'Z' then '+' :: '0' :: '0' :: ':' :: '0' :: '0' :: replaceZChars rest
    else c :: replaceZChars rest

/-- Embedding of the `new_version_timestamp_str.replace("Z", "+00:00")`
preprocessing the source applies before every `fromisoformat` call. -/
def pyReplaceZ (s : String) : String := String.mk (replaceZChars s.data)

/-- Splits the time portion of an ISO string at the first `+` or `-`,
which Python treats as the start of the timezone offset. -/
def splitTz : List Char → List Char × Option (List Char)
  | [] => ([], none)
  | c :: rest =>
    if c = '+' ∨ c = '-' then ([], some (c :: rest))
    else
      let p := splitTz rest
      (c :: p.1, p.2)

/-- Parses the fractional-seconds digits (exactly 3 or 6, as
`fromisoformat` requires) into microseconds. -/
def parseFrac : List Char → Option Nat
  | [a, b, c] =>
    if a.isDigit && b.isDigit && c.isDigit then
      some ((100 * digitVal a + 10 * digitVal b + digitVal c) * 1000)
    else none
  | [a, b, c, d, e, f] =>
    if a.isDigit && b.isDigit && c.isDigit && d.isDigit && e.isDigit && f.isDigit then
      some (100000 * digitVal a + 10000 * digitVal b + 1000 * digitVal c +
            100 * digitVal d + 10 * digitVal e + digitVal f)
    else none
  | _ => none

/-- Parses the time-of-day portion `HH[:MM[:SS[.fff|.ffffff]]]` into
microseconds within the day, with the range checks the `datetime`
constructor performs. -/
def parseTimeChars (cs : List Char) : Option Nat :=
  match cs with
  | [h1, h2] =>
    match twoDigits h1 h2 with
    | some h => if h ≤ 23 then some (h * 3600000000) else none
    | none => none
  | [h1, h2, ':', m1, m2] =>
    match twoDigits h1 h2, twoDigits m1 m2 with
    | some h, some m =>
      if h ≤ 23 ∧ m ≤ 59 then some (h * 3600000000 + m * 60000000) else none
    | _, _ => none
  | h1 :: h2 :: ':' :: m1 :: m2 :: ':' :: s1 :: s2 :: rest =>
    match twoDigits h1 h2, twoDigits m1 m2, twoDigits s1 s2 with
    | some h, some m, some s =>
      if h ≤ 23 ∧ m ≤ 59 ∧ s ≤ 59 then
        match rest with
        | [] => some (h * 3600000000 + m * 60000000 + s * 1000000)
        | '.' :: fs =>
          match parseFrac fs with
          | some f => some (h * 3600000000 + m * 60000000 + s * 1000000 + f)
          | none => none
        | _ => none
      else none
    | _, _, _ => none
  | _ => none

/-- Parses a timezone offset of the form `+HH:MM` or `-HH:MM` into signed
minutes. -/
def parseTzOffset : List Char → Option Int
  | [sg, h1, h2, ':', m1, m2] =>
    if sg = '+' ∨ sg = '-' then
      match twoDigits h1 h2, twoDigits m1 m2 with
      | some h, some m =>
        if h ≤ 23 ∧ m ≤ 59 then
          some (if sg = '-' then -((h * 60 + m : Nat) : Int) else ((h * 60 + m : Nat) : Int))
        else none
      | _, _ => none
    else none
  | _ => none

/-- Parses the leading `YYYY-MM-DD` date, returning its day number since
the epoch and the remaining characters. -/
def parseDateChars : List Char → Option (Int × List Char)
  | y1 :: y2 :: y3 :: y4 :: '-' :: m1 :: m2 :: '-' :: d1 :: d2 :: rest =>
    match fourDigits y1 y2 y3 y4, twoDigits m1 m2, twoDigits d1 d2 with
    | some y, some m, some d =>
      if 1 ≤ y ∧ 1 ≤ m ∧ m ≤ 12 ∧ 1 ≤ d ∧ d ≤ daysInMonth (y : Int) m then
        some (daysFromCivil (y : Int) m d, rest)
      else none
    | _, _, _ => none
  | _ => none

/-- Model of Python `datetime.datetime.fromisoformat` on its documented
grammar: `YYYY-MM-DD`, optionally followed by a one-character separator,
a time `HH[:MM[:SS[.fff|.ffffff]]]` and an offset `±HH:MM`. Returns
`none` where Python raises `ValueError`. -/
def pyFromIsoformat (s : String) : Option PyDatetime :=
  match parseDateChars s.data with
  | none => none
  | some (days, rest) =>
    match rest with
    | [] => some ⟨days * 86400000000, none⟩
    | _sep :: timeChars =>
      let p := splitTz timeChars
      match parseTimeChars p.1 with
      | none => none
      | some usecInDay =>
        match p.2 with
        | none => some ⟨days * 86400000000 + (usecInDay : Int), none⟩
        | some tz =>
          match parseTzOffset tz with
          | none => none
          | some off => some ⟨days * 86400000000 + (usecInDay : Int), some off⟩

/-- Python `>` on datetimes: naive pairs compare wall-clock values, aware
pairs compare UTC instants, and mixing naive with aware raises
`TypeError`. -/
def pyDatetimeGt (a b : PyDatetime) : Except PyError Bool :=
  match a.offsetMin, b.offsetMin with
  | none, none => Except.ok (decide (a.usec > b.usec))
  | some oa, some ob =>
    Except.ok (decide (a.usec - oa * 60000000 > b.usec - ob * 60000000))
  | _, _ =>
    Except.error (PyError.typeError "cannot compare offset-naive and offset-aware datetimes")

/-- The backing `file_tracker` table: rows of `(filename, tracker)`, the
tracker column holding the stored timestamp text. -/
def Store := List (String × String)
deriving DecidableEq

/-- Embeds `cursor.fetchone()` on `SELECT tracker FROM {} WHERE filename = %s`:
the tracker value of the first row whose filename matches, if any. -/
def storeLookup : Store → String → Option String
  | [], _ => none
  | (f, v) :: rest, filename =>
    if f = filename then some v else storeLookup rest filename

/-- Embeds `FileVersionTracker.get_last_version`
(src/file_version_tracker.py lines 40-52): connects (an unreachable store
raises `OperationalError`), selects the row for `filename`, and parses the
stored text with `fromisoformat` after replacing `Z` with `+00:00`;
returns `none` when no row exists. -/
def get_last_version (avail : Bool) (store : Store) (filename : String) :
    Except PyError (Option PyDatetime) :=
  if avail = false then Except.error PyError.operationalError
  else
    match storeLookup store filename with
    | none => Except.ok none
    | some tracker =>
      match pyFromIsoformat (pyReplaceZ tracker) with
      | some dt => Except.ok (some dt)
      | none =>
        Except.error (PyError.valueError ("Invalid isoformat string: " ++ pyReplaceZ tracker))

/-- Embeds `FileVersionTracker.set_last_version`
(src/file_version_tracker.py lines 54-61). The SQL executed is
`UPDATE {} SET tracker = NOW() WHERE filename = %s`: every existing row for
`filename` has its tracker column set to the database's current time
(`nowStr`); the `version` argument is not used anywhere in the body, and no
row is inserted when none matches. -/
def set_last_version (avail : Bool) (nowStr : String) (store : Store)
    (filename : String) (version : String) : Except PyError Store :=
  if avail = false then Except.error PyError.operationalError
  else
    Except.ok (store.map (fun row => if row.1 = filename then (row.1, nowStr) else row))

/-- Embeds `FileVersionTracker.is_new_version_available`
(src/file_version_tracker.py lines 63-77): inside a single `try` block it
parses the candidate (after the `Z` replacement), fetches the stored
marker via `get_last_version`, returns `True` when no marker exists and
otherwise the strict `>` comparison; any exception raised anywhere in the
block — parse failure, store failure, or naive/aware comparison failure —
is converted to `RuntimeError("The given timestamp string is not valid: ...")`. -/
def is_new_version_available (avail : Bool) (store : Store) (filename : String)
    (new_version_timestamp_str : String) : Except PyError Bool :=
  let body : Except PyError Bool :=
    match pyFromIsoformat (pyReplaceZ new_version_timestamp_str) with
    | none =>
      Except.error
        (PyError.valueError ("Invalid isoformat string: " ++ pyReplaceZ new_version_timestamp_str))
    | some new_version_timestamp =>
      match get_last_version avail store filename with
      | Except.error e => Except.error e
      | Except.ok none => Except.ok true
      | Except.ok (some last_version) => pyDatetimeGt new_version_timestamp last_version
  match body with
  | Except.ok b => Except.ok b
  | Except.error e =>
    Except.error (PyError.runtimeError ("The given timestamp string is not valid: " ++ pyErrorMessage e))

instance {ε α : Type} [DecidableEq ε] [DecidableEq α] : DecidableEq (Except ε α) := fun x y =>
  match x, y with
  | Except.ok a, Except.ok b =>
    if h : a = b then isTrue (by rw [h])
    else isFalse (fun hc => h (by cases hc; rfl))
  | Except.error a, Except.error b =>
    if h : a = b then isTrue (by rw [h])
    else isFalse (fun hc => h (by cases hc; rfl))
  | Except.ok _, Except.error _ => isFalse (fun hc => Except.noConfusion hc)
  | Except.error _, Except.ok _ => isFalse (fun hc => Except.noConfusion hc)

/-- Recognizes the `RuntimeError` that `is_new_version_available` raises
for anything going wrong inside its `try` block; the raise on
src/file_version_tracker.py line 77 — message
`The given timestamp string is not valid: ...` — is the only site in the
embedded code that constructs a `RuntimeError`. -/
def raisesInvalidTimestampError (r : Except PyError Bool) : Bool :=
  match r with
  | Except.error (PyError.runtimeError _) => true
  | _ => false

/-- Embeds the `PluginConfig` dataclass of src/plugin_loader.py. -/
structure PluginConfig where
  name : String
  path : String
  classname : String
  enabled : Bool
  config : List (String × String)
deriving Repr, DecidableEq

/-- Embeds the `PluginResult` dataclass of
src/plugins/document_loader_plugin.py (lines 16-25). -/
structure PluginResultV where
  success : Bool
  display_name : String
  content : Option String := none
  file_path : Option String := none
  metadata : List (String × String) := []
  error_message : Option String := none
  requires_version_update : Bool := true
deriving Repr, DecidableEq

/-- Observable behaviour of one call to a plugin instance's `run()`:
either it raises an exception or it returns a `PluginResult`. -/
inductive RunBehavior where
  | raises (msg : String)
  | returns (r : PluginResultV)
deriving Repr, DecidableEq

/-- A constructed plugin instance, identified by `id` and carrying the
behaviour its `run()` method exhibits when the orchestrator calls it. -/
structure PluginInstance where
  id : Nat
  runBehavior : RunBehavior
deriving Repr, DecidableEq

/-- One value of the mapping `load_plugins` returns: the dict
`{"plugin_instance": ..., "config": ...}` built in src/plugin_loader.py
lines 95-100. -/
structure LoadedEntry where
  plugin_instance : PluginInstance
  config : PluginConfig
deriving Repr, DecidableEq

/-- Embeds `PluginLoader._load_plugin` (src/plugin_loader.py lines 63-81):
the dynamic `import_module`/`getattr`/constructor sequence — modelled by
the environment function `construct` — either yields an instance or
raises; every exception is caught, logged, and turned into `None`. -/
def loadPlugin (construct : PluginConfig → Except String PluginInstance)
    (c : PluginConfig) : Option PluginInstance :=
  match construct c with
  | Except.ok inst => some inst
  | Except.error _ => none

/-- Python `dict` assignment `d[k] = v` (via `dict.update`): if the key is
present its value is replaced in place, otherwise the pair is appended in
insertion order. -/
def dictUpdate (m : List (String × LoadedEntry)) (k : String) (v : LoadedEntry) :
    List (String × LoadedEntry) :=
  if m.any (fun p => p.1 = k) then
    m.map (fun p => if p.1 = k then (k, v) else p)
  else m ++ [(k, v)]

/-- One iteration of the `load_plugins` loop (src/plugin_loader.py
lines 88-101): disabled entries are skipped, a failed `_load_plugin`
(`None`) is omitted, and a loaded instance is stored under the entry's
name. -/
def loadStep (construct : PluginConfig → Except String PluginInstance)
    (acc : List (String × LoadedEntry)) (c : PluginConfig) :
    List (String × LoadedEntry) :=
  if c.enabled = false then acc
  else
    match loadPlugin construct c with
    | none => acc
    | some inst => dictUpdate acc c.name ⟨inst, c⟩

/-- Embeds `PluginLoader.load_plugins` (src/plugin_loader.py lines 84-103):
folds the manifest entries, in declaration order, into the
`loaded_plugins` dict. -/
def load_plugins (construct : PluginConfig → Except String PluginInstance)
    (cfgs : List PluginConfig) : List (String × LoadedEntry) :=
  cfgs.foldl (loadStep construct) []

/-- Python dict lookup `plugins[plugin_name]` on the association-list
model: the value of the first (and, for a dict, only) entry with the
key. -/
def dictLookup : List (String × LoadedEntry) → String → Option LoadedEntry
  | [], _ => none
  | (k, v) :: rest, n => if k = n then some v else dictLookup rest n

/-- Per-plugin outcome of one orchestrator loop iteration, as observable
from the logging in src/main.py. -/
inductive Outcome where
  /-- `run()` raised; caught by the outer `except` (main.py line 44). -/
  | failedHard (msg : String)
  /-- the result had `success == False` (main.py line 28). -/
  | failedSoft
  /-- `success` with no `file_path`: checked, nothing new. -/
  | skipped
  /-- upload returned a resource id and the temp file was deleted. -/
  | uploaded (rid : String)
  /-- `upload_file` raised; caught by the outer `except`. -/
  | uploadFailed (msg : String)
deriving Repr, DecidableEq

/-- Observable trace of one orchestrator pass: which instances had `run()`
invoked, the `upload_file` calls made, the `set_last_version` calls made,
the local files that exist afterwards, and the per-plugin outcomes. -/
structure PassTrace where
  invoked : List Nat
  uploads : List (String × String)
  setCalls : List (String × String)
  files : List String
  outcomes : List (String × Outcome)
deriving Repr, DecidableEq

/-- Embeds the body of the orchestrator loop in `main`
(src/main.py lines 19-45) for one plugin: call `run()` (any exception is
caught by the outer `except`); on `success == False` continue; when a
`file_path` is present call `upload_file(display_name, file_path)` and,
only if that call returned, `unlink` the temp file; nothing in the body
ever calls `set_last_version`. -/
def mainStep (upload : String → String → Except String String)
    (t : PassTrace) (nm : String) (inst : PluginInstance) : PassTrace :=
  let t1 := { t with invoked := t.invoked ++ [inst.id] }
  match inst.runBehavior with
  | RunBehavior.raises msg =>
    { t1 with outcomes := t1.outcomes ++ [(nm, Outcome.failedHard msg)] }
  | RunBehavior.returns r =>
    if r.success = false then
      { t1 with outcomes := t1.outcomes ++ [(nm, Outcome.failedSoft)] }
    else
      match r.file_path with
      | none => { t1 with outcomes := t1.outcomes ++ [(nm, Outcome.skipped)] }
      | some p =>
        let t2 := { t1 with uploads := t1.uploads ++ [(r.display_name, p)] }
        match upload r.display_name p with
        | Except.ok rid =>
          { t2 with
            files := t2.files.filter (fun q => decide (q ≠ p)),
            outcomes := t2.outcomes ++ [(nm, Outcome.uploaded rid)] }
        | Except.error m =>
          { t2 with outcomes := t2.outcomes ++ [(nm, Outcome.uploadFailed m)] }

/-- Embeds the whole orchestrator pass of `main` (src/main.py lines 19-45):
iterate the loaded-plugin mapping in insertion order, running `mainStep`
for each entry, starting from an empty trace over the initial set of local
files. -/
def mainPass (upload : String → String → Except String String)
    (plugins : List (String × LoadedEntry)) (files0 : List String) : PassTrace :=
  plugins.foldl (fun t pe => mainStep upload t pe.1 pe.2.plugin_instance)
    { invoked := [], uploads := [], setCalls := [], files := files0, outcomes := [] }

/-- The registry binding the claim C10 describes, built from its words:
fold the manifest and remember, for the given name, the instance and
config of the last enabled entry of that name that constructed
successfully. -/
def lastStep (construct : PluginConfig → Except String PluginInstance) (n : String)
    (acc : Option LoadedEntry) (c : PluginConfig) : Option LoadedEntry :=
  if c.enabled = true ∧ c.name = n then
    match construct c with
    | Except.ok inst => some ⟨inst, c⟩
    | Except.error _ => acc
  else acc

/-- The last same-named, enabled, successfully constructed manifest entry
in declaration order (the binding C10 says the registry keeps). -/
def lastSameNameInstance (construct : PluginConfig → Except String PluginInstance)
    (cfgs : List PluginConfig) (n : String) : Option LoadedEntry :=
  cfgs.foldl (lastStep construct n) none

theorem mainStep_invoked (u : String → String → Except String String)
    (t : PassTrace) (nm : String) (inst : PluginInstance) :
    (mainStep u t nm inst).invoked = t.invoked ++ [inst.id] := by
  obtain ⟨iid, ib⟩ := inst
  cases ib with
  | raises m => rfl
  | returns r =>
    cases hsb : r.success with
    | false => simp [mainStep, hsb]
    | true =>
      cases hf : r.file_path with
      | none => simp [mainStep, hsb, hf]
      | some p => cases hu : u r.display_name p <;> simp [mainStep, hsb, hf, hu]

theorem mainStep_setCalls (u : String → String → Except String String)
    (t : PassTrace) (nm : String) (inst : PluginInstance) :
    (mainStep u t nm inst).setCalls = t.setCalls := by
  obtain ⟨iid, ib⟩ := inst
  cases ib with
  | raises m => rfl
  | returns r =>
    cases hsb : r.success with
    | false => simp [mainStep, hsb]
    | true =>
      cases hf : r.file_path with
      | none => simp [mainStep, hsb, hf]
      | some p => cases hu : u r.display_name p <;> simp [mainStep, hsb, hf, hu]

theorem mainStep_outcome_keys (u : String → String → Except String String)
    (t : PassTrace) (nm : String) (inst : PluginInstance) :
    (mainStep u t nm inst).outcomes.map Prod.fst = t.outcomes.map Prod.fst ++ [nm] := by
  obtain ⟨iid, ib⟩ := inst
  cases ib with
  | raises m => simp [mainStep]
  | returns r =>
    cases hsb : r.success with
    | false => simp [mainStep, hsb]
    | true =>
      cases hf : r.file_path with
      | none => simp [mainStep, hsb, hf]
      | some p => cases hu : u r.display_name p <;> simp [mainStep, hsb, hf, hu]

theorem foldl_mainStep_invoked (u : String → String → Except String String) :
    ∀ (ps : List (String × LoadedEntry)) (t : PassTrace),
      (List.foldl (fun t pe => mainStep u t pe.1 pe.2.plugin_instance) t ps).invoked
        = t.invoked ++ ps.map (fun pe => pe.2.plugin_instance.id)
  | [], t => by simp
  | pe :: ps, t => by
    rw [List.foldl_cons, foldl_mainStep_invoked u ps, mainStep_invoked]
    simp

theorem foldl_mainStep_setCalls (u : String → String → Except String String) :
    ∀ (ps : List (String × LoadedEntry)) (t : PassTrace),
      (List.foldl (fun t pe => mainStep u t pe.1 pe.2.plugin_instance) t ps).setCalls
        = t.setCalls
  | [], t => rfl
  | pe :: ps, t => by
    rw [List.foldl_cons, foldl_mainStep_setCalls u ps, mainStep_setCalls]

theorem foldl_mainStep_outcome_keys (u : String → String → Except String String) :
    ∀ (ps : List (String × LoadedEntry)) (t : PassTrace),
      (List.foldl (fun t pe => mainStep u t pe.1 pe.2.plugin_instance) t ps).outcomes.map Prod.fst
        = t.outcomes.map Prod.fst ++ ps.map Prod.fst
  | [], t => by simp
  | pe :: ps, t => by
    rw [List.foldl_cons, foldl_mainStep_outcome_keys u ps, mainStep_outcome_keys]
    simp

/-- The orchestrator pass invokes `run()` on exactly the loaded instances,
in mapping order. -/
theorem mainPass_invoked (u : String → String → Except String String)
    (ps : List (String × LoadedEntry)) (files0 : List String) :
    (mainPass u ps files0).invoked = ps.map (fun pe => pe.2.plugin_instance.id) := by
  unfold mainPass
  rw [foldl_mainStep_invoked]
  rfl

/-- No code path of the orchestrator loop ever calls
`FileVersionTracker.set_last_version`. -/
theorem mainPass_setCalls (u : String → String → Except String String)
    (ps : List (String × LoadedEntry)) (files0 : List String) :
    (mainPass u ps files0).setCalls = [] := by
  unfold mainPass
  rw [foldl_mainStep_setCalls]

/-- The pass logs exactly one outcome per loaded plugin, keyed by the
plugin's registry name, in order. -/
theorem mainPass_outcome_keys (u : String → String → Except String String)
    (ps : List (String × LoadedEntry)) (files0 : List String) :
    (mainPass u ps files0).outcomes.map Prod.fst = ps.map Prod.fst := by
  unfold mainPass
  rw [foldl_mainStep_outcome_keys]
  rfl

/-- C1: at the failing input — a plugin returning `success=true` with a
present `filePath` and `requiresVersionUpdate=true`, whose upload
completes successfully — the orchestrator pass records no
`set_last_version` call at all (the trace's `setCalls` is empty), so the
version marker is not advanced even though the claim requires it to be;
the code never calls `setLastVersion` on any path. -/
theorem C1_marker_never_advanced :
    mainPass (fun _ _ => Except.ok "rid-1")
      [("migration_tracker",
        ⟨⟨1, RunBehavior.returns
            { success := true, display_name := "VCRM Migration - Tracker.md",
              file_path := some "/tmp/tracker.md", requires_version_update := true }⟩,
          ⟨"migration_tracker", "plugins.migration_tracker.migration_tracker",
            "MigrationTracker", true, []⟩⟩)]
      ["/tmp/tracker.md"]
    = { invoked := [1],
        uploads := [("VCRM Migration - Tracker.md", "/tmp/tracker.md")],
        setCalls := [],
        files := [],
        outcomes := [("migration_tracker", Outcome.uploaded "rid-1")] } := by
  decide

/-- C2: `set_last_version` does not record the given timestamp. On a store
with no row for the name, the UPDATE matches nothing and the marker stays
absent (so a subsequent `get_last_version` returns `none`, not the
timestamp); on a store with an existing row, the stored value becomes the
database's `NOW()` and not the `version` argument, which the body never
reads. -/
theorem C2_set_last_version_ignores_timestamp :
    set_last_version true "2024-06-01T00:00:00+00:00" [] "f" "2024-01-01T00:00:00Z"
      = Except.ok []
    ∧ get_last_version true [] "f" = Except.ok none
    ∧ set_last_version true "2024-06-01T00:00:00+00:00"
        [("f", "2020-01-01T00:00:00+00:00")] "f" "2024-01-01T00:00:00Z"
      = Except.ok [("f", "2024-06-01T00:00:00+00:00")]
    ∧ get_last_version true [("f", "2024-06-01T00:00:00+00:00")] "f"
      ≠ Except.ok (pyFromIsoformat (pyReplaceZ "2024-01-01T00:00:00Z")) := by
  decide

/-- C3: freshness monotonicity fails on the code. With valid timestamps
t1 = 2024-01-01 < t2 = 2024-01-02 (third conjunct) and an empty store,
`set_last_version(n, t2)` stores nothing (the UPDATE matches no row), so
the subsequent `isNewVersionAvailable(n, t1)` finds no marker and returns
`true`, where the claim requires `false`. -/
theorem C3_freshness_monotonicity_fails :
    pyFromIsoformat (pyReplaceZ "2024-01-01T00:00:00+00:00")
      = some ⟨1704067200000000, some 0⟩
    ∧ pyFromIsoformat (pyReplaceZ "2024-01-02T00:00:00+00:00")
      = some ⟨1704153600000000, some 0⟩
    ∧ pyDatetimeGt ⟨1704153600000000, some 0⟩ ⟨1704067200000000, some 0⟩ = Except.ok true
    ∧ set_last_version true "2024-06-01T00:00:00+00:00" [] "f" "2024-01-02T00:00:00+00:00"
      = Except.ok []
    ∧ is_new_version_available true [] "f" "2024-01-01T00:00:00+00:00" = Except.ok true := by
  decide

/-- C4 counterexample: with a perfectly valid candidate timestamp (first
conjunct) and an unreachable store, `is_new_version_available` raises the
very `RuntimeError("The given timestamp string is not valid: ...")` that
models `InvalidTimestamp`, instead of a distinct store-unavailable error:
the `try` block wraps the store access together with the parse. -/
theorem C4_store_failure_counterexample :
    pyFromIsoformat (pyReplaceZ "2024-01-01T00:00:00+00:00")
      = some ⟨1704067200000000, some 0⟩
    ∧ is_new_version_available false [] "f" "2024-01-01T00:00:00+00:00"
      = Except.error (PyError.runtimeError
          "The given timestamp string is not valid: connection to server failed")
    ∧ is_new_version_available false [] "f" "2024-01-01T00:00:00+00:00"
      ≠ Except.error PyError.operationalError := by
  decide

/-- C4 amended: an unparsable candidate makes `isNewVersionAvailable` fail
with the invalid-timestamp `RuntimeError` rather than return false, but the
same `RuntimeError` — not a distinct store error — is also what a
store-access failure surfaces as, because the `try` block wraps both. -/
theorem C4_invalid_timestamp_error (avail : Bool) (store : Store) (n s : String)
    (h : pyFromIsoformat (pyReplaceZ s) = none ∨ avail = false) :
    raisesInvalidTimestampError (is_new_version_available avail store n s) = true := by
  rcases h with h | h
  · simp [is_new_version_available, raisesInvalidTimestampError, h]
  · cases hp : pyFromIsoformat (pyReplaceZ s) with
    | none => simp [is_new_version_available, raisesInvalidTimestampError, hp]
    | some dt =>
      simp [is_new_version_available, raisesInvalidTimestampError, hp, get_last_version, h]

/-- C4 amended, witness: the unparsable candidate "garbage" on an
unreachable store yields the invalid-timestamp `RuntimeError`. -/
theorem C4_invalid_timestamp_error_witness :
    raisesInvalidTimestampError (is_new_version_available false [] "f" "garbage") = true :=
  C4_invalid_timestamp_error false [] "f" "garbage" (Or.inl (by decide))

/-- C5: when a plugin returns `success=true` with a present `filePath`,
the orchestrator calls upload exactly once with `(displayName, filePath)`,
never calls `set_last_version`, and the local file set afterwards is the
original one with the file removed exactly when the upload call returned
successfully — on an upload error the files are untouched. -/
theorem C5_upload_then_cleanup (upload : String → String → Except String String)
    (nm : String) (inst : PluginInstance) (cfg : PluginConfig) (r : PluginResultV)
    (p : String) (files0 : List String)
    (hb : inst.runBehavior = RunBehavior.returns r)
    (hs : r.success = true) (hf : r.file_path = some p) :
    (mainPass upload [(nm, ⟨inst, cfg⟩)] files0).uploads = [(r.display_name, p)]
    ∧ (mainPass upload [(nm, ⟨inst, cfg⟩)] files0).setCalls = []
    ∧ (mainPass upload [(nm, ⟨inst, cfg⟩)] files0).files
        = (match upload r.display_name p with
           | Except.ok _ => files0.filter (fun q => decide (q ≠ p))
           | Except.error _ => files0) := by
  cases hu : upload r.display_name p with
  | ok rid => simp [mainPass, mainStep, hb, hs, hf, hu]
  | error m => simp [mainPass, mainStep, hb, hs, hf, hu]

/-- C5 witness: a concrete plugin with a produced artifact whose upload
raises a permanent error — the upload was attempted once, no marker call
was made, and the temp file survives the pass. -/
theorem C5_upload_then_cleanup_witness :
    (mainPass (fun _ _ => Except.error "permanent")
        [("p", ⟨⟨7, RunBehavior.returns
            { success := true, display_name := "D", file_path := some "/tmp/x.md" }⟩,
          ⟨"p", "plugins.p", "P", true, []⟩⟩)] ["/tmp/x.md"]).uploads
      = [("D", "/tmp/x.md")]
    ∧ (mainPass (fun _ _ => Except.error "permanent")
        [("p", ⟨⟨7, RunBehavior.returns
            { success := true, display_name := "D", file_path := some "/tmp/x.md" }⟩,
          ⟨"p", "plugins.p", "P", true, []⟩⟩)] ["/tmp/x.md"]).setCalls
      = []
    ∧ (mainPass (fun _ _ => Except.error "permanent")
        [("p", ⟨⟨7, RunBehavior.returns
            { success := true, display_name := "D", file_path := some "/tmp/x.md" }⟩,
          ⟨"p", "plugins.p", "P", true, []⟩⟩)] ["/tmp/x.md"]).files
      = (match (fun (_ : String) (_ : String) => (Except.error "permanent" : Except String String)) "D" "/tmp/x.md" with
         | Except.ok _ => (["/tmp/x.md"] : List String).filter (fun q => decide (q ≠ "/tmp/x.md"))
         | Except.error _ => ["/tmp/x.md"]) :=
  C5_upload_then_cleanup (fun _ _ => Except.error "permanent") "p"
    ⟨7, RunBehavior.returns
      { success := true, display_name := "D", file_path := some "/tmp/x.md" }⟩
    ⟨"p", "plugins.p", "P", true, []⟩
    { success := true, display_name := "D", file_path := some "/tmp/x.md" }
    "/tmp/x.md" ["/tmp/x.md"] rfl rfl rfl

/-- C7: a plugin returning `success=true` with `filePath` absent causes
neither an upload call nor any file deletion; the pass records a skip
outcome for it. -/
theorem C7_skip_path (upload : String → String → Except String String)
    (nm : String) (inst : PluginInstance) (cfg : PluginConfig) (r : PluginResultV)
    (files0 : List String)
    (hb : inst.runBehavior = RunBehavior.returns r)
    (hs : r.success = true) (hf : r.file_path = none) :
    (mainPass upload [(nm, ⟨inst, cfg⟩)] files0).uploads = []
    ∧ (mainPass upload [(nm, ⟨inst, cfg⟩)] files0).files = files0
    ∧ (mainPass upload [(nm, ⟨inst, cfg⟩)] files0).outcomes = [(nm, Outcome.skipped)] := by
  simp [mainPass, mainStep, hb, hs, hf]

/-- C7 witness: a concrete skip result — no upload, no deletion, skip
outcome. -/
theorem C7_skip_path_witness :
    (mainPass (fun _ _ => Except.ok "rid")
        [("p", ⟨⟨3, RunBehavior.returns
            { success := true, display_name := "D", file_path := none,
              requires_version_update := false }⟩,
          ⟨"p", "plugins.p", "P", true, []⟩⟩)] ["/tmp/other.md"]).uploads
      = []
    ∧ (mainPass (fun _ _ => Except.ok "rid")
        [("p", ⟨⟨3, RunBehavior.returns
            { success := true, display_name := "D", file_path := none,
              requires_version_update := false }⟩,
          ⟨"p", "plugins.p", "P", true, []⟩⟩)] ["/tmp/other.md"]).files
      = ["/tmp/other.md"]
    ∧ (mainPass (fun _ _ => Except.ok "rid")
        [("p", ⟨⟨3, RunBehavior.returns
            { success := true, display_name := "D", file_path := none,
              requires_version_update := false }⟩,
          ⟨"p", "plugins.p", "P", true, []⟩⟩)] ["/tmp/other.md"]).outcomes
      = [("p", Outcome.skipped)] :=
  C7_skip_path (fun _ _ => Except.ok "rid") "p"
    ⟨3, RunBehavior.returns
      { success := true, display_name := "D", file_path := none,
        requires_version_update := false }⟩
    ⟨"p", "plugins.p", "P", true, []⟩
    { success := true, display_name := "D", file_path := none,
      requires_version_update := false }
    ["/tmp/other.md"] rfl rfl rfl

/-- C9: when the store holds no row for the name, a parsable candidate
makes `is_new_version_available` return `true`. -/
theorem C9_unknown_name_freshness (store : Store) (n s : String) (dt : PyDatetime)
    (hlk : storeLookup store n = none)
    (hp : pyFromIsoformat (pyReplaceZ s) = some dt) :
    is_new_version_available true store n s = Except.ok true := by
  simp [is_new_version_available, get_last_version, hp, hlk]

/-- C9 witness: an empty store and a concrete parsable timestamp. -/
theorem C9_unknown_name_freshness_witness :
    is_new_version_available true [] "f" "2024-03-05T12:30:00Z" = Except.ok true :=
  C9_unknown_name_freshness [] "f" "2024-03-05T12:30:00Z"
    ⟨1709641800000000, some 0⟩ (by decide) (by decide)

theorem replaceZChars_append (xs ys : List Char) :
    replaceZChars (xs ++ ys) = replaceZChars xs ++ replaceZChars ys := by
  induction xs with
  | nil => rfl
  | cons c cs ih =>
    simp only [List.cons_append, replaceZChars]
    split <;> simp [ih]

theorem replaceZChars_of_noZ (xs : List Char) (h : ∀ c ∈ xs, c ≠ 'Z') :
    replaceZChars xs = xs := by
  induction xs with
  | nil => rfl
  | cons c cs ih =>
    have hc : c ≠ 'Z' := h c (by simp)
    simp [replaceZChars, hc, ih (fun d hd => h d (by simp [hd]))]

/-- For a candidate with no other `Z` in it, the source's
`replace("Z", "+00:00")` maps the trailing-`Z` form and the explicit
`+00:00` form to the same string. -/
theorem pyReplaceZ_trailing (s : String) (h : ∀ c ∈ s.data, c ≠ 'Z') :
    pyReplaceZ (s ++ "Z") = pyReplaceZ (s ++ "+00:00")
    ∧ pyReplaceZ (s ++ "Z") = s ++ "+00:00" := by
  have hdataZ : (s ++ "Z").data = s.data ++ "Z".data := by
    cases s; rfl
  have hdataP : (s ++ "+00:00").data = s.data ++ "+00:00".data := by
    cases s; rfl
  have hplus : ∀ c ∈ "+00:00".data, c ≠ 'Z' := by decide
  have h1 : replaceZChars (s ++ "Z").data = s.data ++ "+00:00".data := by
    rw [hdataZ, replaceZChars_append, replaceZChars_of_noZ s.data h]
    rfl
  have h2 : replaceZChars (s ++ "+00:00").data = s.data ++ "+00:00".data := by
    rw [hdataP, replaceZChars_append, replaceZChars_of_noZ s.data h,
        replaceZChars_of_noZ "+00:00".data hplus]
  constructor
  · unfold pyReplaceZ
    rw [h1, h2]
  · unfold pyReplaceZ
    rw [h1, ← hdataP]

/-- C8: for a timestamp body with no `Z` of its own, the trailing-`Z` form
and the explicit `+00:00` form are parsed (through the code's
replace-then-`fromisoformat` pipeline) to the same instant, and
`is_new_version_available` returns the identical result for both — against
any store state and any name. -/
theorem C8_utc_suffix_tolerance (avail : Bool) (store : Store) (n s : String)
    (h : ∀ c ∈ s.data, c ≠ 'Z') :
    pyFromIsoformat (pyReplaceZ (s ++ "Z")) = pyFromIsoformat (pyReplaceZ (s ++ "+00:00"))
    ∧ is_new_version_available avail store n (s ++ "Z")
        = is_new_version_available avail store n (s ++ "+00:00") := by
  have key := (pyReplaceZ_trailing s h).1
  constructor
  · rw [key]
  · unfold is_new_version_available
    rw [key]

/-- C8 witness: the concrete instant 2024-01-01T00:00:00 in both the
trailing-`Z` and the `+00:00` spelling. -/
theorem C8_utc_suffix_tolerance_witness :
    pyFromIsoformat (pyReplaceZ ("2024-01-01T00:00:00" ++ "Z"))
      = pyFromIsoformat (pyReplaceZ ("2024-01-01T00:00:00" ++ "+00:00"))
    ∧ is_new_version_available true [] "f" ("2024-01-01T00:00:00" ++ "Z")
        = is_new_version_available true [] "f" ("2024-01-01T00:00:00" ++ "+00:00") :=
  C8_utc_suffix_tolerance true [] "f" "2024-01-01T00:00:00" (by decide)

theorem dictLookup_map_replace_eq (m : List (String × LoadedEntry)) (k : String)
    (v : LoadedEntry) (hmem : m.any (fun p => p.1 = k) = true) :
    dictLookup (m.map (fun p => if p.1 = k then (k, v) else p)) k = some v := by
  induction m with
  | nil => simp at hmem
  | cons q rest ih =>
    obtain ⟨qk, qv⟩ := q
    rw [List.map_cons]
    by_cases hq : qk = k
    · rw [if_pos hq]
      simp [dictLookup]
    · rw [if_neg hq]
      have hrest : rest.any (fun p => p.1 = k) = true := by
        simp only [List.any_cons] at hmem
        simpa [hq] using hmem
      simp only [dictLookup]
      rw [if_neg hq]
      exact ih hrest

theorem dictLookup_map_replace_ne (m : List (String × LoadedEntry)) (k : String)
    (v : LoadedEntry) (n : String) (hkn : k ≠ n) :
    dictLookup (m.map (fun p => if p.1 = k then (k, v) else p)) n = dictLookup m n := by
  induction m with
  | nil => rfl
  | cons q rest ih =>
    obtain ⟨qk, qv⟩ := q
    rw [List.map_cons]
    by_cases hq : qk = k
    · rw [if_pos hq]
      simp only [dictLookup]
      rw [if_neg hkn, if_neg (hq ▸ hkn : qk ≠ n)]
      exact ih
    · rw [if_neg hq]
      simp only [dictLookup]
      by_cases hqn : qk = n
      · rw [if_pos hqn, if_pos hqn]
      · rw [if_neg hqn, if_neg hqn]
        exact ih

theorem dictLookup_append_single (m : List (String × LoadedEntry)) (k : String)
    (v : LoadedEntry) (n : String) :
    dictLookup (m ++ [(k, v)]) n =
      (match dictLookup m n with
       | some w => some w
       | none => if k = n then some v else none) := by
  induction m with
  | nil => simp [dictLookup]
  | cons q rest ih =>
    obtain ⟨qk, qv⟩ := q
    by_cases hq : qk = n <;> simp [dictLookup, hq, ih]

theorem dictLookup_of_any_false (m : List (String × LoadedEntry)) (k : String)
    (h : m.any (fun p => p.1 = k) = false) : dictLookup m k = none := by
  induction m with
  | nil => rfl
  | cons q rest ih =>
    obtain ⟨qk, qv⟩ := q
    simp only [List.any_cons, Bool.or_eq_false_iff, decide_eq_false_iff_not] at h
    simp [dictLookup, h.1, ih h.2]

/-- Python dict assignment semantics through lookup: the updated key maps
to the new value, all other keys are unaffected. -/
theorem dictLookup_dictUpdate (m : List (String × LoadedEntry)) (k : String)
    (v : LoadedEntry) (n : String) :
    dictLookup (dictUpdate m k v) n = if k = n then some v else dictLookup m n := by
  unfold dictUpdate
  by_cases hmem : m.any (fun p => p.1 = k) = true
  · rw [if_pos hmem]
    by_cases hkn : k = n
    · subst hkn
      rw [if_pos rfl, dictLookup_map_replace_eq m k v hmem]
    · rw [if_neg hkn, dictLookup_map_replace_ne m k v n hkn]
  · have hf : m.any (fun p => p.1 = k) = false := by
      cases hx : m.any (fun p => p.1 = k)
      · rfl
      · exact absurd hx hmem
    rw [if_neg hmem, dictLookup_append_single]
    by_cases hkn : k = n
    · subst hkn
      rw [dictLookup_of_any_false m k hf]
    · cases hl : dictLookup m n <;> simp [hkn, hl]

theorem dictLookup_loadStep (construct : PluginConfig → Except String PluginInstance)
    (acc : List (String × LoadedEntry)) (c : PluginConfig) (n : String) :
    dictLookup (loadStep construct acc c) n = lastStep construct n (dictLookup acc n) c := by
  unfold loadStep lastStep loadPlugin
  cases he : c.enabled with
  | false => simp [he]
  | true =>
    cases hc : construct c with
    | error e => by_cases hn : c.name = n <;> simp [he, hc, hn]
    | ok inst => by_cases hn : c.name = n <;> simp [he, hc, hn, dictLookup_dictUpdate]

theorem load_lookup_foldl (construct : PluginConfig → Except String PluginInstance)
    (n : String) :
    ∀ (cfgs : List PluginConfig) (acc : List (String × LoadedEntry)),
      dictLookup (List.foldl (loadStep construct) acc cfgs) n
        = List.foldl (lastStep construct n) (dictLookup acc n) cfgs
  | [], acc => rfl
  | c :: cfgs, acc => by
    rw [List.foldl_cons, List.foldl_cons, load_lookup_foldl construct n cfgs,
        dictLookup_loadStep]

theorem keys_map_replace (m : List (String × LoadedEntry)) (k : String) (v : LoadedEntry) :
    (m.map (fun p => if p.1 = k then (k, v) else p)).map Prod.fst = m.map Prod.fst := by
  induction m with
  | nil => rfl
  | cons q rest ih =>
    obtain ⟨qk, qv⟩ := q
    by_cases hq : qk = k <;> simp [hq, ih]

theorem not_mem_keys_of_any_false (m : List (String × LoadedEntry)) (k : String)
    (h : m.any (fun p => p.1 = k) = false) : k ∉ m.map Prod.fst := by
  intro hmem
  obtain ⟨p, hp, hpk⟩ := List.mem_map.mp hmem
  rw [List.any_eq_false] at h
  exact h p hp (by simpa using hpk)

theorem keys_nodup_dictUpdate (m : List (String × LoadedEntry)) (k : String)
    (v : LoadedEntry) (h : (m.map Prod.fst).Nodup) :
    ((dictUpdate m k v).map Prod.fst).Nodup := by
  unfold dictUpdate
  by_cases hmem : m.any (fun p => p.1 = k) = true
  · rw [if_pos hmem, keys_map_replace]
    exact h
  · have hf : m.any (fun p => p.1 = k) = false := by
      cases hx : m.any (fun p => p.1 = k)
      · rfl
      · exact absurd hx hmem
    rw [if_neg hmem, List.map_append]
    simp only [List.nodup_append, List.map_cons, List.map_nil]
    refine ⟨h, List.nodup_singleton k, ?_⟩
    intro a ha hb
    rw [List.mem_singleton] at hb
    exact not_mem_keys_of_any_false m k hf (hb ▸ ha)

theorem keys_nodup_loadStep (construct : PluginConfig → Except String PluginInstance)
    (acc : List (String × LoadedEntry)) (c : PluginConfig)
    (h : (acc.map Prod.fst).Nodup) :
    ((loadStep construct acc c).map Prod.fst).Nodup := by
  unfold loadStep loadPlugin
  cases c.enabled
  · simpa using h
  · cases construct c
    · simpa using h
    · simpa using keys_nodup_dictUpdate acc c.name _ h

theorem load_keys_nodup (construct : PluginConfig → Except String PluginInstance) :
    ∀ (cfgs : List PluginConfig) (acc : List (String × LoadedEntry)),
      ((acc.map Prod.fst).Nodup) →
      ((List.foldl (loadStep construct) acc cfgs).map Prod.fst).Nodup
  | [], _, h => h
  | c :: cfgs, acc, h =>
    load_keys_nodup construct cfgs _ (keys_nodup_loadStep construct acc c h)

/-- C10: for every manifest, the registry mapping binds each name to
exactly the last enabled, successfully constructed entry of that name in
declaration order (`lastSameNameInstance` renders the claim's words);
the mapping holds at most one entry per name, and the orchestrator pass
invokes exactly the instances present in the mapping — so an earlier
same-named instance, which is not in the mapping, is never invoked. -/
theorem C10_duplicate_name_last_wins
    (construct : PluginConfig → Except String PluginInstance)
    (cfgs : List PluginConfig) (n : String)
    (upload : String → String → Except String String) (files0 : List String) :
    dictLookup (load_plugins construct cfgs) n = lastSameNameInstance construct cfgs n
    ∧ ((load_plugins construct cfgs).map Prod.fst).Nodup
    ∧ (mainPass upload (load_plugins construct cfgs) files0).invoked
        = (load_plugins construct cfgs).map (fun pe => pe.2.plugin_instance.id) :=
  ⟨load_lookup_foldl construct n cfgs [],
   load_keys_nodup construct cfgs [] (by simp),
   mainPass_invoked upload _ files0⟩

theorem mainStep_raises_outcomes (u : String → String → Except String String)
    (t : PassTrace) (nm : String) (inst : PluginInstance) (msg : String)
    (h : inst.runBehavior = RunBehavior.raises msg) :
    (mainStep u t nm inst).outcomes = t.outcomes ++ [(nm, Outcome.failedHard msg)] := by
  simp [mainStep, h]

/-- C6: with three enabled manifest entries where the second fails to
construct and the third's instance raises from `run()`, the registry map
still holds the first and third instances (in order), the pass invokes
both loaded instances, logs an outcome for each — the first plugin's
outcome is present — and the third's outcome is the caught hard
failure. -/
theorem C6_plugin_isolation
    (construct : PluginConfig → Except String PluginInstance)
    (upload : String → String → Except String String)
    (c1 c2 c3 : PluginConfig) (i1 i3 : PluginInstance)
    (em msg : String) (r1 : PluginResultV) (files0 : List String)
    (h1 : c1.enabled = true) (h2 : c2.enabled = true) (h3 : c3.enabled = true)
    (hc1 : construct c1 = Except.ok i1) (hc2 : construct c2 = Except.error em)
    (hc3 : construct c3 = Except.ok i3)
    (hn : c1.name ≠ c3.name)
    (hb1 : i1.runBehavior = RunBehavior.returns r1)
    (hb3 : i3.runBehavior = RunBehavior.raises msg) :
    load_plugins construct [c1, c2, c3]
      = [(c1.name, ⟨i1, c1⟩), (c3.name, ⟨i3, c3⟩)]
    ∧ (mainPass upload (load_plugins construct [c1, c2, c3]) files0).invoked
        = [i1.id, i3.id]
    ∧ (mainPass upload (load_plugins construct [c1, c2, c3]) files0).outcomes.map Prod.fst
        = [c1.name, c3.name]
    ∧ (mainPass upload (load_plugins construct [c1, c2, c3]) files0).outcomes.getLast?
        = some (c3.name, Outcome.failedHard msg) := by
  have hload : load_plugins construct [c1, c2, c3]
      = [(c1.name, ⟨i1, c1⟩), (c3.name, ⟨i3, c3⟩)] := by
    simp [load_plugins, loadStep, loadPlugin, dictUpdate, h1, h2, h3, hc1, hc2, hc3, hn]
  refine ⟨hload, ?_, ?_, ?_⟩
  · rw [hload, mainPass_invoked]
    rfl
  · rw [hload, mainPass_outcome_keys]
    rfl
  · rw [hload]
    show (mainStep upload
        (mainStep upload
          { invoked := [], uploads := [], setCalls := [], files := files0, outcomes := [] }
          c1.name i1)
        c3.name i3).outcomes.getLast? = some (c3.name, Outcome.failedHard msg)
    rw [mainStep_raises_outcomes upload _ c3.name i3 msg hb3]
    simp

/-- C6 witness: a concrete three-entry manifest exercising the
construction failure and the `run()` failure. -/
theorem C6_plugin_isolation_witness :
    load_plugins
        (fun c => if c.name = "two" then Except.error "boom"
                  else if c.name = "one" then Except.ok ⟨1, RunBehavior.returns
                    { success := true, display_name := "D1", file_path := none }⟩
                  else Except.ok ⟨3, RunBehavior.raises "crash"⟩)
        [⟨"one", "plugins.one", "One", true, []⟩,
         ⟨"two", "plugins.two", "Two", true, []⟩,
         ⟨"three", "plugins.three", "Three", true, []⟩]
      = [("one", ⟨⟨1, RunBehavior.returns
            { success := true, display_name := "D1", file_path := none }⟩,
          ⟨"one", "plugins.one", "One", true, []⟩⟩),
         ("three", ⟨⟨3, RunBehavior.raises "crash"⟩,
          ⟨"three", "plugins.three", "Three", true, []⟩⟩)]
    ∧ (mainPass (fun _ _ => Except.ok "rid")
        (load_plugins
          (fun c => if c.name = "two" then Except.error "boom"
                    else if c.name = "one" then Except.ok ⟨1, RunBehavior.returns
                      { success := true, display_name := "D1", file_path := none }⟩
                    else Except.ok ⟨3, RunBehavior.raises "crash"⟩)
          [⟨"one", "plugins.one", "One", true, []⟩,
           ⟨"two", "plugins.two", "Two", true, []⟩,
           ⟨"three", "plugins.three", "Three", true, []⟩]) []).invoked
      = [1, 3]
    ∧ (mainPass (fun _ _ => Except.ok "rid")
        (load_plugins
          (fun c => if c.name = "two" then Except.error "boom"
                    else if c.name = "one" then Except.ok ⟨1, RunBehavior.returns
                      { success := true, display_name := "D1", file_path := none }⟩
                    else Except.ok ⟨3, RunBehavior.raises "crash"⟩)
          [⟨"one", "plugins.one", "One", true, []⟩,
           ⟨"two", "plugins.two", "Two", true, []⟩,
           ⟨"three", "plugins.three", "Three", true, []⟩]) []).outcomes.map Prod.fst
      = ["one", "three"]
    ∧ (mainPass (fun _ _ => Except.ok "rid")
        (load_plugins
          (fun c => if c.name = "two" then Except.error "boom"
                    else if c.name = "one" then Except.ok ⟨1, RunBehavior.returns
                      { success := true, display_name := "D1", file_path := none }⟩
                    else Except.ok ⟨3, RunBehavior.raises "crash"⟩)
          [⟨"one", "plugins.one", "One", true, []⟩,
           ⟨"two", "plugins.two", "Two", true, []⟩,
           ⟨"three", "plugins.three", "Three", true, []⟩]) []).outcomes.getLast?
      = some ("three", Outcome.failedHard "crash") :=
  C6_plugin_isolation
    (fun c => if c.name = "two" then Except.error "boom"
              else if c.name = "one" then Except.ok ⟨1, RunBehavior.returns
                { success := true, display_name := "D1", file_path := none }⟩
              else Except.ok ⟨3, RunBehavior.raises "crash"⟩)
    (fun _ _ => Except.ok "rid")
    ⟨"one", "plugins.one", "One", true, []⟩
    ⟨"two", "plugins.two", "Two", true, []⟩
    ⟨"three", "plugins.three", "Three", true, []⟩
    ⟨1, RunBehavior.returns { success := true, display_name := "D1", file_path := none }⟩
    ⟨3, RunBehavior.raises "crash"⟩
    "boom" "crash"
    { success := true, display_name := "D1", file_path := none } []
    rfl rfl rfl (by decide) (by decide) (by decide) (by decide) rfl rfl
